import Mathlib

/-!
Verification of the namespace-node wrapping core of `ext/nokogiri/xml_namespace.c`.

The C file manages Ruby wrapper objects for libxml2 `xmlNs` structures.  We give a
shallow embedding: native nodes and documents live in an explicit `State`, identified
by natural-number ids; the Ruby heap effects (`Data_Wrap_Struct`, `rb_ary_push`,
`rb_iv_set`, writing `node->_private`) become explicit state transitions, and the
fatal `assert` at the top of `Nokogiri_wrap_xml_namespace` makes the function return
`Option` (`none` = assertion failure).
-/

abbrev NodeId := Nat
abbrev DocId := Nat
abbrev RubyId := Nat
abbrev WrapperId := Nat

/-- The libxml2 node-type tags that this file inspects (`doc->type`, `node->type`).
`XML_ELEMENT_NODE` stands for any non-namespace node type that may follow a copied
namespace node in an XPath node set. -/
inductive XmlElementType where
  | XML_ELEMENT_NODE
  | XML_DOCUMENT_NODE
  | XML_HTML_DOCUMENT_NODE
  | XML_DOCUMENT_FRAG_NODE
  | XML_NAMESPACE_DECL
deriving DecidableEq

/-- A native node record.  For namespace nodes (`xmlNs`) the fields `href`, `pfx`
(C field `prefix`), `next` and `priv` (C field `_private`, the wrapper-identity
extension slot) are meaningful; for other node kinds only `type` matters here.
`none` models a NULL pointer. -/
structure XmlNode where
  type : XmlElementType
  href : Option String := none
  pfx : Option String := none
  next : Option NodeId := none
  priv : Option WrapperId := none
deriving DecidableEq

/-- A native document record: its `type` tag, the `doc` field (owning document,
followed by the fragment-redirect step) and, modelled from the spec, the host-side
document object when one exists (`DOC_RUBY_OBJECT_TEST` / `DOC_RUBY_OBJECT`:
"a test for does this document have a live host wrapper, a way to obtain that
wrapper"). -/
structure XmlDocStruct where
  type : XmlElementType
  doc : DocId
  rubyObject : Option RubyId := none
deriving DecidableEq

/-- Which free callback `Data_Wrap_Struct` attached to a wrapper: the no-op (C `0`)
or the real destructor `dealloc_namespace`. -/
inductive Dealloc where
  | noop
  | dealloc_namespace
deriving DecidableEq

/-- A Ruby `Nokogiri::XML::Namespace` wrapper object: the wrapped native node, the
attached free callback, and the `@document` instance variable (`none` when it was
never set). -/
structure NsWrapper where
  node : NodeId
  dfree : Dealloc
  document : Option RubyId
deriving DecidableEq

/-- The world the C code acts on: the native node heap, the native document heap,
the list of wrapper objects created so far (a `WrapperId` is an index into it), and
each Ruby document object's `@node_cache` array (of wrapper ids). -/
structure State where
  nodes : NodeId → XmlNode
  docs : DocId → XmlDocStruct
  wrappers : List NsWrapper
  nodeCache : RubyId → List WrapperId

/-- Write the wrapper identity into a node's extension slot (C: `node->_private = (void *)ns`). -/
def State.withPriv (s : State) (nid : NodeId) (w : WrapperId) : State :=
  { s with nodes := fun i => if i = nid then { s.nodes i with priv := some w } else s.nodes i }

/-- Mutate a node's next-sibling link, leaving everything else in place (used to
state classification stability under later sibling-chain mutation). -/
def State.setNext (s : State) (nid : NodeId) (v : Option NodeId) : State :=
  { s with nodes := fun i => if i = nid then { s.nodes i with next := v } else s.nodes i }

/-- Modelled from the spec: the macro `NOKOGIRI_NAMESPACE_EH` from the project
headers (which are not under `src/`) tests whether a node is identifiable as a
namespace node, i.e. whether its node-type tag is the namespace-declaration type. -/
def NOKOGIRI_NAMESPACE_EH (n : XmlNode) : Bool :=
  n.type == XmlElementType.XML_NAMESPACE_DECL

/-- C `part_of_an_xpath_node_set_eh`: the node has a non-null `next` link and that
next node is not itself a namespace node. -/
def part_of_an_xpath_node_set_eh (s : State) (nid : NodeId) : Bool :=
  match (s.nodes nid).next with
  | none => false
  | some nx => ! NOKOGIRI_NAMESPACE_EH (s.nodes nx)

/-- The entry assertion of `Nokogiri_wrap_xml_namespace`:
`assert(doc->type == XML_DOCUMENT_NODE || doc->type == XML_HTML_DOCUMENT_NODE)`. -/
def doc_type_ok (s : State) (d : DocId) : Prop :=
  (s.docs d).type = XmlElementType.XML_DOCUMENT_NODE ∨
  (s.docs d).type = XmlElementType.XML_HTML_DOCUMENT_NODE

instance (s : State) (d : DocId) : Decidable (doc_type_ok s d) :=
  inferInstanceAs (Decidable (_ ∨ _))

/-- C `Nokogiri_wrap_xml_namespace(xmlDocPtr doc, xmlNsPtr node)`.
Returns `none` when the entry assertion fails, otherwise the returned wrapper id
together with the post-state.  Mirrors the C control flow: identity-cache check on
`_private`; fragment redirect `doc = doc->doc`; if the document has a Ruby object,
branch on `part_of_an_xpath_node_set_eh` (real destructor and no cache entry for
XPath copies; no-op destructor plus `@node_cache` push otherwise), then
`rb_iv_set(ns, "@document", document)` on both of those branches; otherwise a bare
wrapper with no-op destructor; finally `node->_private = ns`. -/
def Nokogiri_wrap_xml_namespace (s : State) (docId : DocId) (nid : NodeId) :
    Option (WrapperId × State) :=
  if doc_type_ok s docId then
    match (s.nodes nid).priv with
    | some w => some (w, s)
    | none =>
      let docId1 := if (s.docs docId).type = XmlElementType.XML_DOCUMENT_FRAG_NODE
                    then (s.docs docId).doc else docId
      match (s.docs docId1).rubyObject with
      | some document =>
        if part_of_an_xpath_node_set_eh s nid then
          let wid := s.wrappers.length
          let w : NsWrapper := { node := nid, dfree := Dealloc.dealloc_namespace,
                                 document := some document }
          some (wid, State.withPriv { s with wrappers := s.wrappers ++ [w] } nid wid)
        else
          let wid := s.wrappers.length
          let w : NsWrapper := { node := nid, dfree := Dealloc.noop,
                                 document := some document }
          let s1 : State :=
            { s with wrappers := s.wrappers ++ [w],
                     nodeCache := fun r => if r = document
                                           then s.nodeCache r ++ [wid]
                                           else s.nodeCache r }
          some (wid, State.withPriv s1 nid wid)
      | none =>
        let wid := s.wrappers.length
        let w : NsWrapper := { node := nid, dfree := Dealloc.noop, document := none }
        some (wid, State.withPriv { s with wrappers := s.wrappers ++ [w] } nid wid)
  else none

/-- What the real destructor frees: one event per `xmlFree` call. -/
inductive FreeEvent where
  | freeHref : String → FreeEvent
  | freePfx : String → FreeEvent
  | freeNs : NodeId → FreeEvent
deriving DecidableEq

/-- C `dealloc_namespace(xmlNsPtr ns)`: free `ns->href` if non-null, then
`ns->prefix` if non-null, then the `xmlNs` record itself.  We record the sequence
of `xmlFree` calls it performs. -/
def dealloc_namespace (nid : NodeId) (n : XmlNode) : List FreeEvent :=
  (match n.href with
   | some h => [FreeEvent.freeHref h]
   | none => []) ++
  ((match n.pfx with
    | some p => [FreeEvent.freePfx p]
    | none => []) ++
   [FreeEvent.freeNs nid])

/-- C method `prefix` (named `pfx_get` because `prefix` is a Lean keyword): `nil`
when `ns->prefix` is NULL, otherwise the prefix text.  A pure projection: it takes
the state and wrapper and returns a value without touching either. -/
def pfx_get (s : State) (self : NsWrapper) : Option String :=
  match (s.nodes self.node).pfx with
  | none => none
  | some p => some p

/-- C method `href`: `nil` when `ns->href` is NULL, otherwise the href text.
A pure projection, like `pfx_get`. -/
def href (s : State) (self : NsWrapper) : Option String :=
  match (s.nodes self.node).href with
  | none => none
  | some h => some h

/-! ## Concrete example states

`nsNodeA` is a namespace node whose `next` link points at a non-namespace node
(the shape of an XPath node-set copy); `nsNodeOwned` has a null `next` link (the
shape of a live in-tree declaration). -/

def nsNodeA : XmlNode :=
  { type := XmlElementType.XML_NAMESPACE_DECL, href := some "urn:a", pfx := some "b",
    next := some 1 }

def elemNode : XmlNode := { type := XmlElementType.XML_ELEMENT_NODE }

def nsNodeOwned : XmlNode :=
  { type := XmlElementType.XML_NAMESPACE_DECL, href := some "urn:a" }

/-- A document (Ruby object `7`) whose node `0` looks like an XPath node-set copy. -/
def exState : State :=
  { nodes := fun i => if i = 0 then nsNodeA else elemNode,
    docs := fun _ => { type := XmlElementType.XML_DOCUMENT_NODE, doc := 0,
                       rubyObject := some 7 },
    wrappers := [],
    nodeCache := fun _ => [] }

/-- The state after the first wrap of node `0` in `exState`. -/
def exS1 : State := ((Nokogiri_wrap_xml_namespace exState 0 0).getD (0, exState)).2

/-- A document (Ruby object `7`) whose node `0` looks like a live declaration. -/
def exStateOwned : State :=
  { nodes := fun _ => nsNodeOwned,
    docs := fun _ => { type := XmlElementType.XML_DOCUMENT_NODE, doc := 0,
                       rubyObject := some 7 },
    wrappers := [],
    nodeCache := fun _ => [] }

/-- The state after the first wrap of node `0` in `exStateOwned`. -/
def exS1owned : State :=
  ((Nokogiri_wrap_xml_namespace exStateOwned 0 0).getD (0, exStateOwned)).2

/-- A document with no live Ruby document object. -/
def exStateNoRuby : State :=
  { nodes := fun _ => nsNodeOwned,
    docs := fun _ => { type := XmlElementType.XML_DOCUMENT_NODE, doc := 0 },
    wrappers := [],
    nodeCache := fun _ => [] }

/-- The state after the first wrap of node `0` in `exStateNoRuby`. -/
def exS1nr : State :=
  ((Nokogiri_wrap_xml_namespace exStateNoRuby 0 0).getD (0, exStateNoRuby)).2

/-- Document id `1` is a fragment whose owning document is id `0` (a real document
with Ruby object `7`). -/
def exStateFrag : State :=
  { nodes := fun i => if i = 0 then nsNodeA else elemNode,
    docs := fun d => if d = 1
                     then { type := XmlElementType.XML_DOCUMENT_FRAG_NODE, doc := 0 }
                     else { type := XmlElementType.XML_DOCUMENT_NODE, doc := 0,
                            rubyObject := some 7 },
    wrappers := [],
    nodeCache := fun _ => [] }

/-! ## Helper lemmas -/

lemma getElem?_append_singleton (l : List α) (a : α) : (l ++ [a])[l.length]? = some a := by
  induction l with
  | nil => rfl
  | cons x xs ih => simp

lemma doc_type_ok_not_frag (s : State) (d : DocId) (hA : doc_type_ok s d) :
    (s.docs d).type ≠ XmlElementType.XML_DOCUMENT_FRAG_NODE := by
  rcases hA with h | h <;> rw [h] <;> intro hc <;> cases hc

/-- Identity-cache hit: `_private` already set, wrap returns it with the state untouched. -/
lemma wrap_hit (s : State) (d : DocId) (nid : NodeId) (w : WrapperId)
    (hA : doc_type_ok s d) (hp : (s.nodes nid).priv = some w) :
    Nokogiri_wrap_xml_namespace s d nid = some (w, s) := by
  unfold Nokogiri_wrap_xml_namespace
  rw [if_pos hA, hp]

/-- First wrap, XPath-copy branch: real destructor, no cache push, `@document` set. -/
lemma wrap_first_xpath (s : State) (d : DocId) (nid : NodeId) (robj : RubyId)
    (hA : doc_type_ok s d) (hp : (s.nodes nid).priv = none)
    (hr : (s.docs d).rubyObject = some robj)
    (hx : part_of_an_xpath_node_set_eh s nid = true) :
    Nokogiri_wrap_xml_namespace s d nid =
      some (s.wrappers.length,
        State.withPriv
          { s with wrappers := s.wrappers ++
              [{ node := nid, dfree := Dealloc.dealloc_namespace, document := some robj }] }
          nid s.wrappers.length) := by
  have hnf := doc_type_ok_not_frag s d hA
  unfold Nokogiri_wrap_xml_namespace
  rw [if_pos hA, hp]
  simp [hnf, hr, hx]

/-- First wrap, document-scoped branch: no-op destructor, cache push, `@document` set. -/
lemma wrap_first_owned (s : State) (d : DocId) (nid : NodeId) (robj : RubyId)
    (hA : doc_type_ok s d) (hp : (s.nodes nid).priv = none)
    (hr : (s.docs d).rubyObject = some robj)
    (hx : part_of_an_xpath_node_set_eh s nid = false) :
    Nokogiri_wrap_xml_namespace s d nid =
      some (s.wrappers.length,
        State.withPriv
          { s with wrappers := s.wrappers ++
              [{ node := nid, dfree := Dealloc.noop, document := some robj }],
                   nodeCache := fun r => if r = robj
                                         then s.nodeCache r ++ [s.wrappers.length]
                                         else s.nodeCache r }
          nid s.wrappers.length) := by
  have hnf := doc_type_ok_not_frag s d hA
  unfold Nokogiri_wrap_xml_namespace
  rw [if_pos hA, hp]
  simp [hnf, hr, hx]

/-- First wrap, no live Ruby document object: bare wrapper, no-op destructor. -/
lemma wrap_first_noruby (s : State) (d : DocId) (nid : NodeId)
    (hA : doc_type_ok s d) (hp : (s.nodes nid).priv = none)
    (hr : (s.docs d).rubyObject = none) :
    Nokogiri_wrap_xml_namespace s d nid =
      some (s.wrappers.length,
        State.withPriv
          { s with wrappers := s.wrappers ++
              [{ node := nid, dfree := Dealloc.noop, document := none }] }
          nid s.wrappers.length) := by
  have hnf := doc_type_ok_not_frag s d hA
  unfold Nokogiri_wrap_xml_namespace
  rw [if_pos hA, hp]
  simp [hnf, hr]

/-- A successful wrap implies the entry assertion held. -/
lemma wrap_ok_of_some (s : State) (d : DocId) (nid : NodeId) (r : WrapperId × State)
    (hw : Nokogiri_wrap_xml_namespace s d nid = some r) : doc_type_ok s d := by
  by_cases hA : doc_type_ok s d
  · exact hA
  · unfold Nokogiri_wrap_xml_namespace at hw
    rw [if_neg hA] at hw
    cases hw

lemma withPriv_docs (s : State) (nid : NodeId) (w : WrapperId) :
    (State.withPriv s nid w).docs = s.docs := rfl

lemma withPriv_wrappers (s : State) (nid : NodeId) (w : WrapperId) :
    (State.withPriv s nid w).wrappers = s.wrappers := rfl

lemma withPriv_nodeCache (s : State) (nid : NodeId) (w : WrapperId) :
    (State.withPriv s nid w).nodeCache = s.nodeCache := rfl

lemma withPriv_priv (s : State) (nid : NodeId) (w : WrapperId) :
    ((State.withPriv s nid w).nodes nid).priv = some w := by
  simp [State.withPriv]

lemma withPriv_href (s : State) (nid : NodeId) (w : WrapperId) :
    ((State.withPriv s nid w).nodes nid).href = (s.nodes nid).href := by
  simp [State.withPriv]

lemma setNext_docs (s : State) (nid : NodeId) (v : Option NodeId) :
    (State.setNext s nid v).docs = s.docs := rfl

lemma setNext_priv (s : State) (nid : NodeId) (v : Option NodeId) :
    ((State.setNext s nid v).nodes nid).priv = (s.nodes nid).priv := by
  simp [State.setNext]

/-- The code's XPath-copy test, spelled out: a non-null `next` link whose target is
not a namespace node. -/
lemma part_eq_true_iff (s : State) (nid : NodeId) :
    part_of_an_xpath_node_set_eh s nid = true ↔
      ∃ nx, (s.nodes nid).next = some nx ∧
        (s.nodes nx).type ≠ XmlElementType.XML_NAMESPACE_DECL := by
  unfold part_of_an_xpath_node_set_eh NOKOGIRI_NAMESPACE_EH
  cases hnx : (s.nodes nid).next with
  | none => simp
  | some nx => simp [hnx]

/-- Negation of the XPath-copy test: null `next`, or a next node that is itself a
namespace node. -/
lemma part_eq_false_iff (s : State) (nid : NodeId) :
    part_of_an_xpath_node_set_eh s nid = false ↔
      ((s.nodes nid).next = none ∨
       ∃ nx, (s.nodes nid).next = some nx ∧
         (s.nodes nx).type = XmlElementType.XML_NAMESPACE_DECL) := by
  unfold part_of_an_xpath_node_set_eh NOKOGIRI_NAMESPACE_EH
  cases hnx : (s.nodes nid).next with
  | none => simp
  | some nx => simp [hnx]

/-- After any successful wrap, the node's extension slot holds the returned wrapper
id, and the native document heap is untouched. -/
lemma wrap_post (s : State) (d : DocId) (nid : NodeId) (w1 : WrapperId) (s1 : State)
    (hw : Nokogiri_wrap_xml_namespace s d nid = some (w1, s1)) :
    (s1.nodes nid).priv = some w1 ∧ s1.docs = s.docs := by
  have hA := wrap_ok_of_some s d nid _ hw
  cases hp : (s.nodes nid).priv with
  | some w =>
    rw [wrap_hit s d nid w hA hp] at hw
    simp only [Option.some.injEq, Prod.mk.injEq] at hw
    obtain ⟨hw1, hw2⟩ := hw
    subst hw1; subst hw2
    exact ⟨hp, rfl⟩
  | none =>
    cases hr : (s.docs d).rubyObject with
    | none =>
      rw [wrap_first_noruby s d nid hA hp hr] at hw
      simp only [Option.some.injEq, Prod.mk.injEq] at hw
      obtain ⟨hw1, hw2⟩ := hw
      subst hw1; subst hw2
      exact ⟨withPriv_priv _ nid _, rfl⟩
    | some robj =>
      cases hx : part_of_an_xpath_node_set_eh s nid with
      | true =>
        rw [wrap_first_xpath s d nid robj hA hp hr hx] at hw
        simp only [Option.some.injEq, Prod.mk.injEq] at hw
        obtain ⟨hw1, hw2⟩ := hw
        subst hw1; subst hw2
        exact ⟨withPriv_priv _ nid _, rfl⟩
      | false =>
        rw [wrap_first_owned s d nid robj hA hp hr hx] at hw
        simp only [Option.some.injEq, Prod.mk.injEq] at hw
        obtain ⟨hw1, hw2⟩ := hw
        subst hw1; subst hw2
        exact ⟨withPriv_priv _ nid _, rfl⟩

/-! ## Claims -/

/-- Claim C1: for every valid document handle, if the node's extension slot already
holds a wrapper identity, `wrap` returns that wrapper with the state completely
unchanged (no new wrapper allocated, node and node caches untouched); consequently,
once a wrap call has succeeded, every further wrap call on the same node returns the
identical wrapper id and changes nothing. -/
theorem C1_identity_cache (s : State) (docId : DocId) (nid : NodeId)
    (hA : doc_type_ok s docId) :
    (∀ w, (s.nodes nid).priv = some w →
      Nokogiri_wrap_xml_namespace s docId nid = some (w, s)) ∧
    (∀ w1 s1, Nokogiri_wrap_xml_namespace s docId nid = some (w1, s1) →
      Nokogiri_wrap_xml_namespace s1 docId nid = some (w1, s1)) := by
  constructor
  · intro w hp
    exact wrap_hit s docId nid w hA hp
  · intro w1 s1 hw
    obtain ⟨hpriv, hdocs⟩ := wrap_post s docId nid w1 s1 hw
    have hA1 : doc_type_ok s1 docId := by
      unfold doc_type_ok
      rw [hdocs]
      exact hA
    exact wrap_hit s1 docId nid w1 hA1 hpriv

/-- Claim C1 witness: wrapping node 0 of `exState` a second time returns the cached
wrapper 0 and the unchanged state. -/
theorem C1_identity_cache_witness :
    Nokogiri_wrap_xml_namespace exS1 0 0 = some (0, exS1) :=
  (C1_identity_cache exState 0 0 (Or.inl rfl)).2 0 exS1 rfl

/-- Claim C9: the classification is decided exactly once, at first wrap: after any
successful wrap, mutating the node's next-sibling link and wrapping again returns
the cached wrapper with no state change, and the wrapper registry (hence the
destructor variant recorded for the wrapper) is exactly as the first wrap left it. -/
theorem C9_classification_stable (s : State) (docId : DocId) (nid : NodeId)
    (w : WrapperId) (s1 : State)
    (hw : Nokogiri_wrap_xml_namespace s docId nid = some (w, s1)) :
    ∀ v, Nokogiri_wrap_xml_namespace (State.setNext s1 nid v) docId nid =
          some (w, State.setNext s1 nid v) ∧
        (State.setNext s1 nid v).wrappers = s1.wrappers := by
  intro v
  obtain ⟨hpriv, hdocs⟩ := wrap_post s docId nid w s1 hw
  have hA := wrap_ok_of_some s docId nid _ hw
  have hA1 : doc_type_ok (State.setNext s1 nid v) docId := by
    unfold doc_type_ok
    rw [setNext_docs, hdocs]
    exact hA
  have hpriv1 : ((State.setNext s1 nid v).nodes nid).priv = some w := by
    rw [setNext_priv]
    exact hpriv
  exact ⟨wrap_hit _ docId nid w hA1 hpriv1, rfl⟩

/-- Claim C9 witness: after first-wrapping node 0 of `exState`, cutting its
next-sibling link and wrapping again still returns wrapper 0 unchanged. -/
theorem C9_classification_stable_witness :
    Nokogiri_wrap_xml_namespace (State.setNext exS1 0 none) 0 0 =
      some (0, State.setNext exS1 0 none) :=
  ((C9_classification_stable exState 0 0 0 exS1 rfl) none).1

/-- Claim C10: when the wrapped native node's `href` field is NULL, the `href`
accessor returns `nil` (modelled `none`) instead of failing. -/
theorem C10_null_href (s : State) (wr : NsWrapper)
    (h0 : (s.nodes wr.node).href = none) : href s wr = none := by
  unfold href
  rw [h0]

/-- Claim C10 witness: node 1 of `exState` has no `href`; the accessor yields `none`. -/
theorem C10_null_href_witness :
    href exState { node := 1, dfree := Dealloc.noop, document := none } = none :=
  C10_null_href exState { node := 1, dfree := Dealloc.noop, document := none } rfl

/-- Claim C4: the detached-wrapper destructor frees, in order, the `href` buffer if
non-null, then the `prefix` buffer if non-null, then the node record; each exactly
once (the event list has no duplicates), the node record is freed last, and nothing
else is freed (the four exhaustive cases list every event emitted). -/
theorem C4_dealloc_order (nid : NodeId) (n : XmlNode) :
    (dealloc_namespace nid n).Nodup ∧
    (dealloc_namespace nid n).getLast? = some (FreeEvent.freeNs nid) ∧
    (n.href = none → n.pfx = none →
      dealloc_namespace nid n = [FreeEvent.freeNs nid]) ∧
    (∀ h, n.href = some h → n.pfx = none →
      dealloc_namespace nid n = [FreeEvent.freeHref h, FreeEvent.freeNs nid]) ∧
    (∀ p, n.href = none → n.pfx = some p →
      dealloc_namespace nid n = [FreeEvent.freePfx p, FreeEvent.freeNs nid]) ∧
    (∀ h p, n.href = some h → n.pfx = some p →
      dealloc_namespace nid n =
        [FreeEvent.freeHref h, FreeEvent.freePfx p, FreeEvent.freeNs nid]) := by
  cases hh : n.href <;> cases hp2 : n.pfx <;>
    simp [dealloc_namespace, hh, hp2]

/-- Claim C4 witness: for a node with `href` "urn:a" and prefix "b", the destructor
frees exactly the href buffer, then the prefix buffer, then the record. -/
theorem C4_dealloc_order_witness :
    dealloc_namespace 0 nsNodeA =
      [FreeEvent.freeHref "urn:a", FreeEvent.freePfx "b", FreeEvent.freeNs 0] :=
  (C4_dealloc_order 0 nsNodeA).2.2.2.2.2 "urn:a" "b" rfl rfl

/-- Claim C2: on a first wrap performed with a valid document that has a live Ruby
object, the wrapper is constructed on the detached (real-destructor) path exactly
when the node has a non-null next-sibling link whose target is not itself a
namespace node. -/
theorem C2_transient_classification (s : State) (docId : DocId) (nid : NodeId)
    (w : WrapperId) (s1 : State) (robj : RubyId)
    (hA : doc_type_ok s docId)
    (hp : (s.nodes nid).priv = none)
    (hr : (s.docs docId).rubyObject = some robj)
    (hw : Nokogiri_wrap_xml_namespace s docId nid = some (w, s1)) :
    ((s1.wrappers[w]?).map NsWrapper.dfree = some Dealloc.dealloc_namespace) ↔
      (∃ nx, (s.nodes nid).next = some nx ∧
        (s.nodes nx).type ≠ XmlElementType.XML_NAMESPACE_DECL) := by
  cases hx : part_of_an_xpath_node_set_eh s nid with
  | true =>
    rw [wrap_first_xpath s docId nid robj hA hp hr hx] at hw
    simp only [Option.some.injEq, Prod.mk.injEq] at hw
    obtain ⟨hw1, hw2⟩ := hw
    subst hw1; subst hw2
    constructor
    · intro _
      exact (part_eq_true_iff s nid).mp hx
    · intro _
      rw [withPriv_wrappers]
      rw [getElem?_append_singleton]
      rfl
  | false =>
    rw [wrap_first_owned s docId nid robj hA hp hr hx] at hw
    simp only [Option.some.injEq, Prod.mk.injEq] at hw
    obtain ⟨hw1, hw2⟩ := hw
    subst hw1; subst hw2
    constructor
    · intro hcontra
      rw [withPriv_wrappers] at hcontra
      rw [getElem?_append_singleton] at hcontra
      simp at hcontra
    · intro hex
      exact absurd ((part_eq_true_iff s nid).mpr hex) (by rw [hx]; intro hc; cases hc)

/-- Claim C2 witness: node 0 of `exState` has a non-namespace next sibling, and its
first wrap indeed carries the real destructor. -/
theorem C2_transient_classification_witness :
    (exS1.wrappers[0]?).map NsWrapper.dfree = some Dealloc.dealloc_namespace :=
  (C2_transient_classification exState 0 0 0 exS1 7 (Or.inl rfl) rfl rfl rfl).mpr
    ⟨1, rfl, by decide⟩

/-- Claim C3 counterexample: node 0 of `exState` is classified as a transient copy
(the test is true), yet the detached wrapper produced for it carries the document
back-reference `some 7` — not "no reference to any document" as the claim states. -/
theorem C3_counterexample :
    part_of_an_xpath_node_set_eh exState 0 = true ∧
    ((Nokogiri_wrap_xml_namespace exState 0 0).bind fun p => p.2.wrappers[p.1]?) =
      some { node := 0, dfree := Dealloc.dealloc_namespace, document := some 7 } :=
  ⟨rfl, rfl⟩

/-- Claim C3 (amended): a node classified as a transient copy at first wrap gets a
detached wrapper with the real destructor and is not registered in any node cache,
but — contrary to the claim — the wrapper does carry a document back-reference to
the owning document's Ruby object (`rb_iv_set(ns, "@document", document)` runs on
this path too). -/
theorem C3_detached_no_cache (s : State) (docId : DocId) (nid : NodeId)
    (w : WrapperId) (s1 : State) (robj : RubyId)
    (hA : doc_type_ok s docId)
    (hp : (s.nodes nid).priv = none)
    (hr : (s.docs docId).rubyObject = some robj)
    (hx : ∃ nx, (s.nodes nid).next = some nx ∧
      (s.nodes nx).type ≠ XmlElementType.XML_NAMESPACE_DECL)
    (hw : Nokogiri_wrap_xml_namespace s docId nid = some (w, s1)) :
    s1.wrappers[w]? =
      some { node := nid, dfree := Dealloc.dealloc_namespace, document := some robj } ∧
    s1.nodeCache = s.nodeCache := by
  have hxb : part_of_an_xpath_node_set_eh s nid = true := (part_eq_true_iff s nid).mpr hx
  rw [wrap_first_xpath s docId nid robj hA hp hr hxb] at hw
  simp only [Option.some.injEq, Prod.mk.injEq] at hw
  obtain ⟨hw1, hw2⟩ := hw
  subst hw1; subst hw2
  constructor
  · rw [withPriv_wrappers]
    exact getElem?_append_singleton _ _
  · rfl

/-- Claim C3 (amended) witness: the first wrap of node 0 of `exState` yields the
detached wrapper with `@document = 7`, and every node cache is untouched. -/
theorem C3_detached_no_cache_witness :
    exS1.wrappers[0]? =
      some { node := 0, dfree := Dealloc.dealloc_namespace, document := some 7 } ∧
    exS1.nodeCache 7 = exState.nodeCache 7 :=
  ⟨(C3_detached_no_cache exState 0 0 0 exS1 7 (Or.inl rfl) rfl rfl
      ⟨1, rfl, by decide⟩ rfl).1,
   congrFun (C3_detached_no_cache exState 0 0 0 exS1 7 (Or.inl rfl) rfl rfl
      ⟨1, rfl, by decide⟩ rfl).2 7⟩

/-- Claim C5: on a first wrap with a live Ruby document object and a node not
classified as a transient copy (null next link, or a next node that is itself a
namespace node), the wrapper gets the no-op destructor and the document
back-reference, is appended to that document's node cache, and no other document's
cache is touched. -/
theorem C5_document_scoped (s : State) (docId : DocId) (nid : NodeId)
    (w : WrapperId) (s1 : State) (robj : RubyId)
    (hA : doc_type_ok s docId)
    (hp : (s.nodes nid).priv = none)
    (hr : (s.docs docId).rubyObject = some robj)
    (hx : (s.nodes nid).next = none ∨
      ∃ nx, (s.nodes nid).next = some nx ∧
        (s.nodes nx).type = XmlElementType.XML_NAMESPACE_DECL)
    (hw : Nokogiri_wrap_xml_namespace s docId nid = some (w, s1)) :
    s1.wrappers[w]? =
      some { node := nid, dfree := Dealloc.noop, document := some robj } ∧
    s1.nodeCache robj = s.nodeCache robj ++ [w] ∧
    ∀ r, r ≠ robj → s1.nodeCache r = s.nodeCache r := by
  have hxb : part_of_an_xpath_node_set_eh s nid = false :=
    (part_eq_false_iff s nid).mpr hx
  rw [wrap_first_owned s docId nid robj hA hp hr hxb] at hw
  simp only [Option.some.injEq, Prod.mk.injEq] at hw
  obtain ⟨hw1, hw2⟩ := hw
  subst hw1; subst hw2
  refine ⟨?_, ?_, ?_⟩
  · rw [withPriv_wrappers]
    exact getElem?_append_singleton _ _
  · rw [withPriv_nodeCache]
    simp
  · intro r hne
    rw [withPriv_nodeCache]
    simp [hne]

/-- Claim C5 witness: first-wrapping node 0 of `exStateOwned` yields the
document-scoped wrapper and appends it to Ruby document 7's node cache. -/
theorem C5_document_scoped_witness :
    exS1owned.wrappers[0]? =
      some { node := 0, dfree := Dealloc.noop, document := some 7 } ∧
    exS1owned.nodeCache 7 = exStateOwned.nodeCache 7 ++ [0] :=
  ⟨(C5_document_scoped exStateOwned 0 0 0 exS1owned 7 (Or.inl rfl) rfl rfl
      (Or.inl rfl) rfl).1,
   (C5_document_scoped exStateOwned 0 0 0 exS1owned 7 (Or.inl rfl) rfl rfl
      (Or.inl rfl) rfl).2.1⟩

/-- Claim C6 counterexample: the claim predicts that wrapping through a fragment
redirects to the fragment's owning document and then proceeds; in the code the
entry assertion admits only the two document kinds, so the call on the fragment
aborts (`none`) even though the very same call on the owning document succeeds —
no redirect-and-classify ever happens for a fragment. -/
theorem C6_counterexample :
    (exStateFrag.docs 1).type = XmlElementType.XML_DOCUMENT_FRAG_NODE ∧
    (Nokogiri_wrap_xml_namespace exStateFrag 1 0).isNone = true ∧
    (Nokogiri_wrap_xml_namespace exStateFrag ((exStateFrag.docs 1).doc) 0).isSome =
      true :=
  ⟨rfl, rfl, rfl⟩

/-- Claim C6 (amended): the entry assertion admits only the two supported document
kinds, so a call whose document structure is a fragment fails the assertion and
returns nothing; the fragment-redirect step in the body is unreachable. -/
theorem C6_fragment_asserts (s : State) (docId : DocId) (nid : NodeId)
    (hf : (s.docs docId).type = XmlElementType.XML_DOCUMENT_FRAG_NODE) :
    Nokogiri_wrap_xml_namespace s docId nid = none := by
  have hA : ¬ doc_type_ok s docId := fun hA => doc_type_ok_not_frag s docId hA hf
  unfold Nokogiri_wrap_xml_namespace
  rw [if_neg hA]

/-- Claim C6 (amended) witness: wrapping node 0 through fragment document 1 of
`exStateFrag` aborts. -/
theorem C6_fragment_asserts_witness :
    Nokogiri_wrap_xml_namespace exStateFrag 1 0 = none :=
  C6_fragment_asserts exStateFrag 1 0 rfl

/-- Claim C7: on a first wrap whose document has no live Ruby document object, the
wrapper gets the no-op destructor (never the real free callback) and no document
back-reference, and every node cache is left untouched. -/
theorem C7_no_ruby_document (s : State) (docId : DocId) (nid : NodeId)
    (w : WrapperId) (s1 : State)
    (hA : doc_type_ok s docId)
    (hp : (s.nodes nid).priv = none)
    (hr : (s.docs docId).rubyObject = none)
    (hw : Nokogiri_wrap_xml_namespace s docId nid = some (w, s1)) :
    s1.wrappers[w]? =
      some { node := nid, dfree := Dealloc.noop, document := none } ∧
    s1.nodeCache = s.nodeCache := by
  rw [wrap_first_noruby s docId nid hA hp hr] at hw
  simp only [Option.some.injEq, Prod.mk.injEq] at hw
  obtain ⟨hw1, hw2⟩ := hw
  subst hw1; subst hw2
  constructor
  · rw [withPriv_wrappers]
    exact getElem?_append_singleton _ _
  · rfl

/-- Claim C7 witness: first-wrapping node 0 of `exStateNoRuby` yields the bare
no-op wrapper with no document back-reference. -/
theorem C7_no_ruby_document_witness :
    exS1nr.wrappers[0]? =
      some { node := 0, dfree := Dealloc.noop, document := none } :=
  (C7_no_ruby_document exStateNoRuby 0 0 0 exS1nr (Or.inl rfl) rfl rfl rfl).1

/-- Claim C8: the `prefix` accessor returns `none` exactly when the node's prefix
field is null and the exact prefix text otherwise; and the `href` accessor applied
to the wrapper produced by `wrap` returns exactly the node's href text.  Both
accessors are pure projections of the state (they return a value and no new
state). -/
theorem C8_accessors (s : State) (docId : DocId) (nid : NodeId)
    (w : WrapperId) (s1 : State) (h : String)
    (hp : (s.nodes nid).priv = none)
    (hh : (s.nodes nid).href = some h)
    (hw : Nokogiri_wrap_xml_namespace s docId nid = some (w, s1)) :
    (∀ t wr, (pfx_get t wr = none ↔ (t.nodes wr.node).pfx = none) ∧
      ∀ p, (t.nodes wr.node).pfx = some p → pfx_get t wr = some p) ∧
    ((s1.wrappers[w]?).map fun wr => href s1 wr) = some (some h) := by
  have hA := wrap_ok_of_some s docId nid _ hw
  constructor
  · intro t wr
    constructor
    · unfold pfx_get
      cases hq : (t.nodes wr.node).pfx <;> simp
    · intro p hq
      unfold pfx_get
      rw [hq]
  · cases hr : (s.docs docId).rubyObject with
    | none =>
      rw [wrap_first_noruby s docId nid hA hp hr] at hw
      simp only [Option.some.injEq, Prod.mk.injEq] at hw
      obtain ⟨hw1, hw2⟩ := hw
      subst hw1; subst hw2
      rw [withPriv_wrappers, getElem?_append_singleton]
      simp [href, State.withPriv, hh]
    | some robj =>
      cases hx : part_of_an_xpath_node_set_eh s nid with
      | true =>
        rw [wrap_first_xpath s docId nid robj hA hp hr hx] at hw
        simp only [Option.some.injEq, Prod.mk.injEq] at hw
        obtain ⟨hw1, hw2⟩ := hw
        subst hw1; subst hw2
        rw [withPriv_wrappers, getElem?_append_singleton]
        simp [href, State.withPriv, hh]
      | false =>
        rw [wrap_first_owned s docId nid robj hA hp hr hx] at hw
        simp only [Option.some.injEq, Prod.mk.injEq] at hw
        obtain ⟨hw1, hw2⟩ := hw
        subst hw1; subst hw2
        rw [withPriv_wrappers, getElem?_append_singleton]
        simp [href, State.withPriv, hh]

/-- Claim C8 witness: wrapping node 0 of `exStateOwned` (href "urn:a") and reading
`href` back through the produced wrapper yields "urn:a". -/
theorem C8_accessors_witness :
    ((exS1owned.wrappers[0]?).map fun wr => href exS1owned wr) = some (some "urn:a") :=
  (C8_accessors exStateOwned 0 0 0 exS1owned "urn:a" rfl rfl rfl).2
